import Mathlib

set_option maxRecDepth 100000

/- Shallow embedding of `src/the_entitytainer_2.h` (the entitytainer, v0.01).

   Modelling conventions:
   * C `TheEntitytainerEntity` (`short`) is an `Int`; every store of a computed short
     goes through `wrap16s`, the signed 16-bit wrap.
   * C `TheEntitytainerEntry` (`unsigned short`) is a `Nat`; the `(TheEntitytainerEntry)`
     cast of an `int` is `toEntry` (reduction mod 2^16 of the two-complement bit pattern).
   * C `int` locals and struct fields are `Int`.
   * Arrays are Lean lists read through `getD` (default 0) and written through `set`.
     Out-of-range accesses are undefined behaviour in C; in the concrete traces proved
     below every access is in bounds, so the defaults are never observable there.
   * `assert` failures make an operation return `none`; operations that cannot fail an
     assert are total.
   * The freed-bucket write `*(int*)(buckets + offset) = v` in
     `entitytainer_remove_entity` stores a 4-byte int across two adjacent 16-bit Entity
     slots; `storeInt` models this little-endian.
   * The layout asserts of `entitytainer_create` (pointer-arithmetic checks and
     `bucket_sizes[i] * sizeof(Entity) >= sizeof(int)`) are configuration checks on the
     carve-up of the caller buffer; the embedding constructs the carved regions directly,
     and every configuration used below satisfies them. -/

/-- Signed 16-bit wrap: the value a C `short` assignment stores. -/
def wrap16s (x : Int) : Int := (x + 32768) % 65536 - 32768

/-- Cast of a C `int` to `TheEntitytainerEntry` (`unsigned short`): mod 2^16. -/
def toEntry (x : Int) : Nat := (x % 65536).toNat

/-- Entity-array read `a[i]` at a C `int` index. -/
def arrGet (l : List Int) (i : Int) : Int := l.getD i.toNat 0

/-- Entity-array store `a[i] = v` of a C `short` value. -/
def arrSet (l : List Int) (i v : Int) : List Int := l.set i.toNat (wrap16s v)

/-- Entry-(lookup-)array read. -/
def lkGet (l : List Nat) (i : Int) : Nat := l.getD i.toNat 0

/-- Entry-(lookup-)array store; the stored value is already Entry-typed at every source
    call site. -/
def lkSet (l : List Nat) (i : Int) (v : Nat) : List Nat := l.set i.toNat v

/-- Store of a C `int` (4 bytes, little endian) at Entity-slot offset `off`: it occupies
    slots `off` and `off + 1`.  Models `*(int*)(bucket_list->buckets + offset) = v`. -/
def storeInt (l : List Int) (off v : Int) : List Int :=
  arrSet (arrSet l off (v % 65536)) (off + 1) (v.fdiv 65536)

/-- Copy of `cnt` Entity slots from `src` at `soff` into `dst` at `doff`; all reads come
    from the original `src` list, which is both `memcpy` (disjoint slabs on migration)
    and `memmove` (left shift in `entitytainer_remove_child`) semantics. -/
def copySlots (dst src : List Int) (doff soff : Int) : Nat → List Int
  | 0 => dst
  | n + 1 => (copySlots dst src doff soff n).set (doff + n).toNat (arrGet src (soff + n))

/-- One tier: `TheEntitytainerBucketList`.  `buckets` is the flat slab of Entity
    slots of the tier (`bucket_size` slots per bucket). -/
structure TheEntitytainerBucketList where
  buckets : List Int
  bucket_size : Int
  total_buckets : Int
  first_free_bucket : Int
  used_buckets : Int

/-- The container: forward lookup `entry_lookup`, reverse lookup `entry_reverse_lookup`,
    and the ordered tier records.  `num_bucket_lists` is `bucket_lists.length`. -/
structure TheEntitytainer where
  entry_lookup : List Nat
  entry_reverse_lookup : List Int
  bucket_lists : List TheEntitytainerBucketList

/-- Tier record access `entitytainer->bucket_lists + t`. -/
def getBL (s : TheEntitytainer) (t : Nat) : TheEntitytainerBucketList :=
  s.bucket_lists.getD t ⟨[], 0, 0, 0, 0⟩

/-- Tier index of a lookup word: `lookup >> ENTITYTAINER_BucketListOffset`, where the
    offset is `sizeof(TheEntitytainerEntry) * 8 - 2 = 14`. -/
def decodeTier (lookup : Nat) : Nat := lookup >>> 14

/-- Bucket index of a lookup word: `lookup & ENTITYTAINER_BucketMask`, where
    `ENTITYTAINER_BucketMask` is `0x3f`. -/
def decodeBucketIndex (lookup : Nat) : Nat := lookup &&& 63

/-- Forward lookup read `entitytainer->entry_lookup[e]`. -/
def readL (s : TheEntitytainer) (e : Int) : Nat := lkGet s.entry_lookup e

/-- Reverse lookup read `entitytainer->entry_reverse_lookup[e]`. -/
def readR (s : TheEntitytainer) (e : Int) : Int := arrGet s.entry_reverse_lookup e

/-- Lookup word written on migration:
    `(TheEntitytainerEntry)(t << 14) | (TheEntitytainerEntry)bucket_index`. -/
def entryOf (t : Nat) (idx : Int) : Nat := (t * 16384 % 65536) ||| toEntry idx

/-- Freelist-then-bump bucket allocation, as inlined three times in source
    (`entitytainer_add_entity` and both migration sites): the candidate index is
    `used_buckets`, overridden by the freelist head when that is not
    `ENTITYTAINER_NoFreeBucket` (-1); popping reads the new head from
    `buckets[first_free_bucket]`, an Entity read at flat index `first_free_bucket`,
    exactly as written in source.  The `used_buckets` increment stays at the call
    sites, as in source. -/
def bucketListAlloc (bl : TheEntitytainerBucketList) : Int × TheEntitytainerBucketList :=
  if bl.first_free_bucket ≠ -1 then
    (bl.first_free_bucket,
     { bl with first_free_bucket := arrGet bl.buckets bl.first_free_bucket })
  else (bl.used_buckets, bl)

/-- The tier-migration block shared by `entitytainer_add_child` (lines 334-356, with
    `tDst = tSrc + 1` and `copyCount = ` source bucket size) and
    `entitytainer_remove_child` (lines 394-414, with `tDst = tSrc - 1` and
    `copyCount = ` destination bucket size): allocate a bucket in tier `tDst`, copy
    `copyCount` Entity slots from the source bucket, bump `used_buckets` of the
    destination and drop it on the source, and rewrite `entry_lookup[parent]`.
    Returns the new state, the flat offset of the new bucket, and its index. -/
def entitytainer_migrate (s : TheEntitytainer) (parent : Int) (tSrc : Nat) (srcOff : Int)
    (tDst : Nat) (copyCount : Nat) : TheEntitytainer × Int × Int :=
  let blDst := getBL s tDst
  let alloc := bucketListAlloc blDst
  let idxNew := alloc.1
  let blDst1 := alloc.2
  let dstOff : Int := idxNew * blDst1.bucket_size
  let bucketsDst := copySlots blDst1.buckets (getBL s tSrc).buckets dstOff srcOff copyCount
  let blDst2 := { blDst1 with buckets := bucketsDst, used_buckets := blDst1.used_buckets + 1 }
  let blSrc := getBL s tSrc
  let blSrc1 := { blSrc with used_buckets := blSrc.used_buckets - 1 }
  let lists1 := (s.bucket_lists.set tDst blDst2).set tSrc blSrc1
  let lookupNew := entryOf tDst idxNew
  ({ s with bucket_lists := lists1, entry_lookup := lkSet s.entry_lookup parent lookupNew },
   dstOff, idxNew)

/-- The insertion tail of `entitytainer_add_child` (lines 358-362):
    `bucket[0]++; bucket[bucket[0]] = child; entry_reverse_lookup[child] = parent`,
    on the bucket of tier `t` at flat offset `boff`. -/
def insertChildAt (s : TheEntitytainer) (t : Nat) (boff : Int) (child parent : Int) :
    TheEntitytainer :=
  let bl := getBL s t
  let buckets1 := arrSet bl.buckets boff (arrGet bl.buckets boff + 1)
  let buckets2 := arrSet buckets1 (boff + arrGet buckets1 boff) child
  { s with
    bucket_lists := s.bucket_lists.set t { bl with buckets := buckets2 },
    entry_reverse_lookup := arrSet s.entry_reverse_lookup child parent }

/-- `entitytainer_add_entity` (lines 275-295): asserts `entry_lookup[entity] == 0`,
    draws a tier-0 bucket (freelist then bump), increments `used_buckets`, writes the
    lookup word `(TheEntitytainerEntry)bucket_index` (tier bits 0), and zeroes the count slot
    of the new bucket.  The second source assert re-checks the same unchanged lookup
    entry. -/
def entitytainer_add_entity (s : TheEntitytainer) (entity : Int) :
    Option TheEntitytainer :=
  if readL s entity ≠ 0 then none
  else
    let bl := getBL s 0
    let alloc := bucketListAlloc bl
    let bidx := alloc.1
    let bl1 := alloc.2
    let bl2 := { bl1 with used_buckets := bl1.used_buckets + 1 }
    let bl3 := { bl2 with buckets := arrSet bl2.buckets (bidx * bl2.bucket_size) 0 }
    some { s with
           entry_lookup := lkSet s.entry_lookup entity (toEntry bidx),
           bucket_lists := s.bucket_lists.set 0 bl3 }

/-- The child scan of `entitytainer_remove_child` (lines 376-382), bug included:
    `while (*child_temp != child && i < num_children) { ++i; ++child; }` increments the
    searched-for value `child` instead of advancing `child_temp`, which stays at
    `&bucket[1]`.  `removeScanAux` runs it with fuel `num_children - i`; it returns the
    final `(i, child)` pair. -/
def removeScanAux (slot1 : Int) : Nat → Int → Int → Int × Int
  | 0, i, child => (i, child)
  | fuel + 1, i, child =>
    if slot1 = child then (i, child)
    else removeScanAux slot1 fuel (i + 1) (wrap16s (child + 1))

/-- Entry point of the scan: `i` starts at 0, `child_temp` points at `bucket[1]`. -/
def removeScan (slot1 child n : Int) : Int × Int := removeScanAux slot1 n.toNat 0 child

/-- `entitytainer_remove_child` (lines 365-417): assert `lookup != 0`; decode
    `(tier, bucket index)`; run the (buggy) scan; assert `i < num_children`; shift the
    slots after position `i` left one step with `memmove` from `child_temp + 1 = bucket + 2`
    (the scan never advanced `child_temp`); decrement the count slot; migrate down when a
    previous tier exists and the re-read count `+ 1` equals its bucket size; finally zero
    `entry_reverse_lookup[child]` at the final (mutated) `child` value of the scan. -/
def entitytainer_remove_child (s : TheEntitytainer) (parent child : Int) :
    Option TheEntitytainer :=
  let lookup := readL s parent
  if lookup = 0 then none
  else
    let t := decodeTier lookup
    let bl := getBL s t
    let boff : Int := (decodeBucketIndex lookup : Int) * bl.bucket_size
    let n := arrGet bl.buckets boff
    let scan := removeScan (arrGet bl.buckets (boff + 1)) child n
    let i := scan.1
    let childF := scan.2
    if i < n then
      let buckets1 := copySlots bl.buckets bl.buckets (boff + 1) (boff + 2) (n - i - 1).toNat
      let buckets2 := arrSet buckets1 boff (arrGet buckets1 boff - 1)
      let s1 : TheEntitytainer :=
        { s with bucket_lists := s.bucket_lists.set t { bl with buckets := buckets2 } }
      let s2 :=
        if 0 < t ∧ arrGet buckets2 boff + 1 = (getBL s1 (t - 1)).bucket_size then
          (entitytainer_migrate s1 parent t boff (t - 1)
            (getBL s1 (t - 1)).bucket_size.toNat).1
        else s1
      some { s2 with entry_reverse_lookup := arrSet s2.entry_reverse_lookup childF 0 }
    else none

/-- `entitytainer_remove_entity` (lines 297-321): if `entry_reverse_lookup[entity] != 0`
    first detach from the parent via `entitytainer_remove_child` and reload the lookup;
    if the lookup is 0 return silently; otherwise push the bucket on the freelist
    of its tier (`removeEntityFree`). -/
def removeEntityFree (s : TheEntitytainer) (entity : Int) (lookup : Nat) :
    TheEntitytainer :=
  let t := decodeTier lookup
  let bl := getBL s t
  let bidx : Int := (decodeBucketIndex lookup : Int)
  let boff := bidx * bl.bucket_size
  let bl1 := { bl with
               buckets := storeInt bl.buckets boff bl.first_free_bucket,
               first_free_bucket := bidx,
               used_buckets := bl.used_buckets - 1 }
  { s with
    bucket_lists := s.bucket_lists.set t bl1,
    entry_lookup := lkSet s.entry_lookup entity 0 }

/-- `entitytainer_remove_entity` proper. -/
def entitytainer_remove_entity (s : TheEntitytainer) (entity : Int) :
    Option TheEntitytainer :=
  if readR s entity ≠ 0 then
    match entitytainer_remove_child s (readR s entity) entity with
    | none => none
    | some s2 =>
      if readL s2 entity = 0 then some s2
      else some (removeEntityFree s2 entity (readL s2 entity))
  else
    if readL s entity = 0 then some s
    else some (removeEntityFree s entity (readL s entity))

/-- `entitytainer_add_child` (lines 323-363): assert `lookup != 0`; decode; if
    `bucket[0] + 1 == bucket_list->bucket_size` then (after
    `ASSERT(bucket_list_index != 3)`) migrate to the next tier, copying
    `bucket_list->bucket_size` Entity slots; then insert the child and set the reverse
    lookup. -/
def entitytainer_add_child (s : TheEntitytainer) (parent child : Int) :
    Option TheEntitytainer :=
  let lookup := readL s parent
  if lookup = 0 then none
  else
    let t := decodeTier lookup
    let bl := getBL s t
    let boff : Int := (decodeBucketIndex lookup : Int) * bl.bucket_size
    if arrGet bl.buckets boff + 1 = bl.bucket_size then
      if t = 3 then none
      else
        let m := entitytainer_migrate s parent t boff (t + 1) bl.bucket_size.toNat
        some (insertChildAt m.1 (t + 1) m.2.1 child parent)
    else some (insertChildAt s t boff child parent)

/-- `entitytainer_get_children` (lines 419-434): assert `lookup != 0`; return the view
    `(bucket + 1, bucket[0])`, modelled as the list of `bucket[0]` slots after the count
    slot together with the count. -/
def entitytainer_get_children (s : TheEntitytainer) (parent : Int) :
    Option (List Int × Int) :=
  let lookup := readL s parent
  if lookup = 0 then none
  else
    let bl := getBL s (decodeTier lookup)
    let boff : Int := (decodeBucketIndex lookup : Int) * bl.bucket_size
    let n := arrGet bl.buckets boff
    some ((bl.buckets.drop (boff + 1).toNat).take n.toNat, n)

/-- `entitytainer_num_children` (lines 436-446): assert `lookup != 0`; return
    `bucket[0]`. -/
def entitytainer_num_children (s : TheEntitytainer) (parent : Int) : Option Int :=
  let lookup := readL s parent
  if lookup = 0 then none
  else
    let bl := getBL s (decodeTier lookup)
    some (arrGet bl.buckets ((decodeBucketIndex lookup : Int) * bl.bucket_size))

/-- `entitytainer_get_child_index` (lines 448-467): assert `lookup != 0`; linear scan of
    slots `1..bucket[0]` for the first occurrence of `child`; `-1` when not found. -/
def entitytainer_get_child_index (s : TheEntitytainer) (parent child : Int) :
    Option Int :=
  let lookup := readL s parent
  if lookup = 0 then none
  else
    let bl := getBL s (decodeTier lookup)
    let boff : Int := (decodeBucketIndex lookup : Int) * bl.bucket_size
    let n := arrGet bl.buckets boff
    let children := (bl.buckets.drop (boff + 1).toNat).take n.toNat
    some (match children.findIdx? (fun x => x = child) with
          | some k => (k : Int)
          | none => -1)

/-- `entitytainer_get_parent` (lines 469-473): `entry_reverse_lookup[child]`. -/
def entitytainer_get_parent (s : TheEntitytainer) (child : Int) : Int := readR s child

/-- `entitytainer_needed_size` (lines 144-157).  The `sizeof` constants of the fixed C
    types become parameters (`szEntry` and `szEntity` are both 2 in source); the loop
    over tiers is the source loop. -/
def entitytainer_needed_size (num_entries : Int) (bucket_sizes bucket_list_sizes : List Int)
    (num_bucket_lists : Nat) (szContainer szEntry szEntity szBucketList : Int) : Int :=
  let size0 := szContainer + num_entries * szEntry + num_entries * szEntity
      + (num_bucket_lists : Int) * szBucketList
  (List.range num_bucket_lists).foldl
    (fun acc i => acc + bucket_list_sizes.getD i 0 * bucket_sizes.getD i 0 * szEntity) size0

/-- `entitytainer_create` (lines 159-208): zero the buffer (all arrays start at 0),
    carve the regions, and initialise each tier record with `first_free_bucket = -1`,
    `used_buckets = 0`, except tier 0 which reserves bucket 0 (`used_buckets = 1`). -/
def entitytainer_create (num_entries : Nat) (bucket_sizes bucket_list_sizes : List Int)
    (num_bucket_lists : Nat) : TheEntitytainer :=
  { entry_lookup := List.replicate num_entries 0,
    entry_reverse_lookup := List.replicate num_entries 0,
    bucket_lists := (List.range num_bucket_lists).map (fun i =>
      { buckets := List.replicate (bucket_sizes.getD i 0 * bucket_list_sizes.getD i 0).toNat 0,
        bucket_size := bucket_sizes.getD i 0,
        total_buckets := bucket_list_sizes.getD i 0,
        first_free_bucket := -1,
        used_buckets := if i = 0 then 1 else 0 }) }

/- Concrete configurations and traces.  `ent0` is the configuration from the usage example
   in the library header and the end-to-end scenarios of the spec: max_entities 1024, bucket
   sizes [4, 16, 256], bucket counts [4, 2, 2]. -/

def cfgSizes : List Int := [4, 16, 256]

def cfgCounts : List Int := [4, 2, 2]

def ent0 : TheEntitytainer := entitytainer_create 1024 cfgSizes cfgCounts 3

/-- Scenario S5 prefix: `add_entity(9); add_child(9,20); add_child(9,21); add_child(9,22)`. -/
def traceC1 : Option TheEntitytainer :=
  (entitytainer_add_entity ent0 9).bind (fun s => entitytainer_add_child s 9 20)
    |>.bind (fun s => entitytainer_add_child s 9 21)
    |>.bind (fun s => entitytainer_add_child s 9 22)

/-- Scenario S2 prefix: `add_entity(5); add_child(5,100); add_child(5,101)`. -/
def traceC2pre : Option TheEntitytainer :=
  (entitytainer_add_entity ent0 5).bind (fun s => entitytainer_add_child s 5 100)
    |>.bind (fun s => entitytainer_add_child s 5 101)

/-- Scenario S2: the add of the third child, `add_child(5,102)`. -/
def traceC2 : Option TheEntitytainer :=
  traceC2pre.bind (fun s => entitytainer_add_child s 5 102)

/-- Scenario S4 prefix: `add_entity(1); add_entity(2); remove_entity(1)`. -/
def traceS4a : Option TheEntitytainer :=
  (entitytainer_add_entity ent0 1).bind (fun s => entitytainer_add_entity s 2)
    |>.bind (fun s => entitytainer_remove_entity s 1)

/-- Scenario S4: the reusing `add_entity(7)`. -/
def traceS4b : Option TheEntitytainer :=
  traceS4a.bind (fun s => entitytainer_add_entity s 7)

/-- One more `add_entity(8)` after scenario S4 (pops the corrupted freelist head 0). -/
def traceC10 : Option TheEntitytainer :=
  traceS4b.bind (fun s => entitytainer_add_entity s 8)

/-- A two-tier configuration (T = 2, bucket sizes [4, 16]) in which the bucket of entity 1
    is the top-tier (tier 1) bucket 0 holding 15 children, so the very next add fires
    the migration test with `t + 1 = T = 2`. -/
def s5 : TheEntitytainer :=
  { entry_lookup := (List.replicate 8 0).set 1 16384,
    entry_reverse_lookup := List.replicate 8 0,
    bucket_lists :=
      [ { buckets := List.replicate 16 0, bucket_size := 4, total_buckets := 4,
          first_free_bucket := -1, used_buckets := 1 },
        { buckets := (List.replicate 32 0).set 0 15, bucket_size := 16, total_buckets := 2,
          first_free_bucket := -1, used_buckets := 1 } ] }

/-- A one-tier configuration with 65 buckets of size 4, in which entity 1 owns bucket
    index 64 (lookup word 64): its real bucket (flat offset 256) has count 9, while the
    reserved bucket 0 has count 7 in slot 0. -/
def sC3 : TheEntitytainer :=
  { entry_lookup := (List.replicate 4 0).set 1 64,
    entry_reverse_lookup := List.replicate 4 0,
    bucket_lists :=
      [ { buckets := ((List.replicate 260 0).set 0 7).set 256 9, bucket_size := 4,
          total_buckets := 65, first_free_bucket := -1, used_buckets := 65 } ] }

/-- Witness configuration: max_entities 16, tiers [4, 16] with counts [4, 2]. -/
def entW : TheEntitytainer := entitytainer_create 16 [4, 16] [4, 2] 2

/-- Witness trace: entity 5 with three children, one short of filling its tier-0
    bucket. -/
def sW : TheEntitytainer :=
  (((entitytainer_add_entity entW 5).bind (fun s => entitytainer_add_child s 5 100)
    |>.bind (fun s => entitytainer_add_child s 5 101)
    |>.bind (fun s => entitytainer_add_child s 5 102))).getD entW

/- Helper lemmas about the list primitives and shared blocks. -/

/-- Reading a list at the index just written returns the written value (in bounds). -/
theorem getD_set_self {α : Type} (v d : α) :
    ∀ (l : List α) (i : Nat), i < l.length → (l.set i v).getD i d = v
  | [], i, h => absurd h (by simp)
  | _ :: _, 0, _ => rfl
  | _ :: l, i + 1, h => getD_set_self v d l i (by simpa using h)

/-- Reading a list at a different index than the one written is unchanged. -/
theorem getD_set_ne {α : Type} (v d : α) :
    ∀ (l : List α) (i j : Nat), i ≠ j → (l.set i v).getD j d = l.getD j d
  | [], _, _, _ => rfl
  | _ :: _, 0, 0, h => absurd rfl h
  | _ :: _, 0, _ + 1, _ => rfl
  | _ :: _, _ + 1, 0, _ => rfl
  | _ :: l, i + 1, j + 1, h => getD_set_ne v d l i j (fun he => h (by omega))

/-- `copySlots` preserves the destination length. -/
theorem copySlots_length (dst src : List Int) (doff soff : Int) :
    ∀ cnt : Nat, (copySlots dst src doff soff cnt).length = dst.length
  | 0 => rfl
  | n + 1 => by
    simp only [copySlots, List.length_set]
    exact copySlots_length dst src doff soff n

/-- Inside the copied window, `copySlots` returns the source slots. -/
theorem copySlots_getD (dst src : List Int) (doff soff : Int) (hoff : 0 ≤ doff) :
    ∀ (cnt : Nat) (j : Nat), j < cnt → doff.toNat + cnt ≤ dst.length →
      arrGet (copySlots dst src doff soff cnt) (doff + (j : Int))
        = arrGet src (soff + (j : Int))
  | 0, j, hj, _ => absurd hj (by omega)
  | n + 1, j, hj, hlen => by
    simp only [copySlots]
    rcases Nat.lt_or_ge j n with hlt | hge
    · have hne : (doff + (n : Int)).toNat ≠ (doff + (j : Int)).toNat := by omega
      unfold arrGet
      rw [getD_set_ne _ _ _ _ _ hne]
      exact copySlots_getD dst src doff soff hoff n j hlt (by omega)
    · have hj' : j = n := by omega
      subst hj'
      unfold arrGet
      rw [getD_set_self]
      rw [copySlots_length]
      omega

/-- Allocation from a bucket list leaves the slab untouched. -/
theorem bucketListAlloc_buckets (bl : TheEntitytainerBucketList) :
    (bucketListAlloc bl).2.buckets = bl.buckets := by
  unfold bucketListAlloc
  split <;> rfl

/-- Allocation from a bucket list leaves the bucket size untouched. -/
theorem bucketListAlloc_bucket_size (bl : TheEntitytainerBucketList) :
    (bucketListAlloc bl).2.bucket_size = bl.bucket_size := by
  unfold bucketListAlloc
  split <;> rfl

/-- A left fold accumulating sums is the starting value plus the sum of the mapped
    list. -/
theorem foldl_add_eq_sum {α : Type} (f : α → Int) :
    ∀ (l : List α) (b : Int), l.foldl (fun acc x => acc + f x) b = b + (l.map f).sum
  | [], b => by simp
  | x :: l, b => by
    simp only [List.foldl_cons, List.map_cons, List.sum_cons]
    rw [foldl_add_eq_sum f l (b + f x)]
    ring

/-- After a migration, the destination tier record is the allocated record with the
    copied slab and a bumped `used_buckets`. -/
theorem migrate_getBL_dst (s : TheEntitytainer) (parent : Int) (tSrc : Nat) (srcOff : Int)
    (tDst : Nat) (cnt : Nat) (hne : tSrc ≠ tDst) (hlt : tDst < s.bucket_lists.length) :
    getBL (entitytainer_migrate s parent tSrc srcOff tDst cnt).1 tDst
      = { (bucketListAlloc (getBL s tDst)).2 with
          buckets := copySlots (bucketListAlloc (getBL s tDst)).2.buckets
            (getBL s tSrc).buckets
            ((bucketListAlloc (getBL s tDst)).1 * (bucketListAlloc (getBL s tDst)).2.bucket_size)
            srcOff cnt,
          used_buckets := (bucketListAlloc (getBL s tDst)).2.used_buckets + 1 } := by
  simp only [entitytainer_migrate, getBL]
  rw [getD_set_ne _ _ _ _ _ hne, getD_set_self _ _ _ _ hlt]

/- Claim theorems. -/

/-- C1 (code evaluated at the failing input): on the configuration of scenario S5, after
    `add_entity(9); add_child(9,20); add_child(9,21); add_child(9,22)` the children are
    exactly [20, 21, 22], yet `remove_child(9, 21)` fails its found-assert instead of
    removing 21 and leaving [20, 22]: the scan loop compares `bucket[1]` (20) against
    `child` while incrementing `child` itself (21, 22, 23, ...), never advancing
    `child_temp`, so `i` reaches `num_children` with `child` mutated to 24. -/
theorem remove_child_scan_never_advances :
    (traceC1.map fun s =>
      (entitytainer_get_children s 9, (entitytainer_remove_child s 9 21).isSome))
      = some (some ([20, 21, 22], 3), false)
    ∧ removeScan 20 21 3 = (3, 24) := by decide

/-- C2 (counterexample to the claim as stated): with bucket sizes [4, 16, 256], after
    `add_entity(5)` the add of the third child does NOT migrate: the parent is still in
    tier 0 with count 3, because the source migration test is
    `bucket[0] + 1 == bucket_size` (4), not `n + 1 == bucket_size - 1` (3). -/
theorem third_child_add_does_not_migrate :
    (traceC2pre.map fun s => entitytainer_num_children s 5) = some (some 2)
    ∧ (traceC2.map fun s => (decodeTier (readL s 5), entitytainer_num_children s 5))
        = some (0, some 3)
    ∧ (((0 : Nat) = 1) → False) := by decide

/-- C2 (amended): `entitytainer_add_child` migrates the parent to tier `t + 1` exactly
    when `n + 1 = B` (the bucket is exactly full: count slot plus `B - 1` children), not
    when `n + 1 = B - 1`: if `n + 1 ≠ B` the lookup word is untouched and the child is
    inserted in place; if `n + 1 = B` the add allocates bucket `idxNew` in tier `t + 1`
    (freelist head, else bump index), copies the `B` slots of the source bucket (count
    and children) into it, rewrites `entry_lookup[p]` to the encoding of
    `(t + 1, idxNew)`, and only then inserts.  Stated for any state, with the decoded
    tier, bucket size, count, target index and flat offset abstracted by their defining
    equations. -/
theorem addChild_migrates_iff_bucket_full
    (s : TheEntitytainer) (p c : Int) (t : Nat) (B n idxNew boff : Int)
    (ht : t = decodeTier (readL s p))
    (hB : B = (getBL s t).bucket_size)
    (hboff : boff = (decodeBucketIndex (readL s p) : Int) * B)
    (hn : n = arrGet (getBL s t).buckets boff)
    (hidx : idxNew = (bucketListAlloc (getBL s (t + 1))).1)
    (hp : p.toNat < s.entry_lookup.length)
    (hnz : readL s p ≠ 0)
    (ht3 : t ≠ 3) :
    (n + 1 ≠ B →
      entitytainer_add_child s p c = some (insertChildAt s t boff c p)
      ∧ readL (insertChildAt s t boff c p) p = readL s p)
    ∧ (n + 1 = B →
      entitytainer_add_child s p c
        = some (insertChildAt (entitytainer_migrate s p t boff (t + 1) B.toNat).1 (t + 1)
            (entitytainer_migrate s p t boff (t + 1) B.toNat).2.1 c p)
      ∧ readL (insertChildAt (entitytainer_migrate s p t boff (t + 1) B.toNat).1 (t + 1)
            (entitytainer_migrate s p t boff (t + 1) B.toNat).2.1 c p) p
          = entryOf (t + 1) idxNew
      ∧ (t + 1 < s.bucket_lists.length → 0 ≤ idxNew → 0 ≤ (getBL s (t + 1)).bucket_size →
          (idxNew * (getBL s (t + 1)).bucket_size).toNat + B.toNat
            ≤ (getBL s (t + 1)).buckets.length →
          ∀ j : Nat, j < B.toNat →
            arrGet (getBL (entitytainer_migrate s p t boff (t + 1) B.toNat).1 (t + 1)).buckets
                (idxNew * (getBL s (t + 1)).bucket_size + (j : Int))
              = arrGet (getBL s t).buckets (boff + (j : Int)))) := by
  subst hidx hn hboff hB ht
  constructor
  · intro hne
    refine ⟨?_, rfl⟩
    simp only [entitytainer_add_child]
    rw [if_neg hnz, if_neg hne]
  · intro heq
    refine ⟨?_, ?_, ?_⟩
    · simp only [entitytainer_add_child]
      rw [if_neg hnz, if_pos heq, if_neg ht3]
    · show (lkSet s.entry_lookup p _).getD p.toNat 0 = _
      unfold lkSet
      exact getD_set_self _ _ _ _ hp
    · intro hts hi hbs hlen j hj
      rw [migrate_getBL_dst s p _ _ _ _ (by omega) hts]
      simp only [bucketListAlloc_buckets, bucketListAlloc_bucket_size]
      exact copySlots_getD _ _ _ _ (mul_nonneg hi hbs) _ j hj (by omega)

/-- C2 (witness): on the two-tier witness configuration, entity 5 holds three children
    in its size-4 tier-0 bucket; the add of the fourth child takes the migration branch
    and rewrites the lookup word of entity 5 to `entryOf 1 0` (tier 1, bucket 0). -/
theorem addChild_migrates_witness :
    (3 : Int) + 1 = 4
    ∧ entitytainer_add_child sW 5 103
        = some (insertChildAt (entitytainer_migrate sW 5 0 4 1 (4 : Int).toNat).1 1
            (entitytainer_migrate sW 5 0 4 1 (4 : Int).toNat).2.1 103 5)
    ∧ readL (insertChildAt (entitytainer_migrate sW 5 0 4 1 (4 : Int).toNat).1 1
            (entitytainer_migrate sW 5 0 4 1 (4 : Int).toNat).2.1 103 5) 5
        = entryOf 1 0 := by
  have h := addChild_migrates_iff_bucket_full sW 5 103 0 4 3 0 4
    (by decide) (by decide) (by decide) (by decide) (by decide) (by decide) (by decide)
    (by decide)
  have h2 := h.2 (by norm_num)
  exact ⟨by norm_num, h2.1, h2.2.1⟩

/-- C3 (counterexample to the claim as stated): the lookup word 64 is decoded by every
    operation with `ENTITYTAINER_BucketMask = 0x3f`, giving bucket index 0 rather than
    the low fourteen bits 64: on `sC3`, where entity 1 carries lookup word 64,
    `entitytainer_num_children` reads the count 7 of bucket 0 instead of the count 9
    stored in slot 0 of bucket 64 (flat offset 256). -/
theorem bucket_index_mask_counterexample :
    readL sC3 1 = 64
    ∧ decodeBucketIndex 64 = 0
    ∧ (64 : Nat) % 16384 = 64
    ∧ entitytainer_num_children sC3 1 = some 7
    ∧ arrGet (getBL sC3 0).buckets (64 * 4) = 9
    ∧ (((7 : Int) = 9) → False) := by decide

/-- C3 (amended): decoding a 16-bit lookup word takes the tier from the top 2 bits
    (shift by 14), as claimed, but the bucket index from the LOW 6 bits
    (`lookup & 0x3f`), not the low 14: a tier can address at most 64 buckets, and bits
    6..13 of the entry are ignored by every decode. -/
theorem decode_extracts_six_bit_bucket_index (lk : Nat) (h : lk < 65536) :
    decodeBucketIndex lk = lk % 64 ∧ decodeBucketIndex lk < 64
    ∧ decodeTier lk = lk / 16384 ∧ decodeTier lk < 4 := by
  have h1 : decodeBucketIndex lk = lk % 64 := by
    have := Nat.and_pow_two_sub_one_eq_mod lk 6
    norm_num at this
    simpa [decodeBucketIndex] using this
  have h2 : decodeTier lk = lk / 16384 := by
    have := Nat.shiftRight_eq_div_pow lk 14
    norm_num at this
    simpa [decodeTier] using this
  refine ⟨h1, ?_, h2, ?_⟩
  · rw [h1]; exact Nat.mod_lt _ (by norm_num)
  · rw [h2]; omega

/-- C3 (witness): the amended decode equations evaluated at the lookup word 100. -/
theorem decode_extracts_six_bit_witness :
    100 < 65536
    ∧ (decodeBucketIndex 100 = 100 % 64 ∧ decodeBucketIndex 100 < 64
       ∧ decodeTier 100 = 100 / 16384 ∧ decodeTier 100 < 4) :=
  ⟨by norm_num, decode_extracts_six_bit_bucket_index 100 (by norm_num)⟩

/-- C4 (code evaluated at the failing input): scenario S4,
    `add_entity(1); add_entity(2); remove_entity(1); add_entity(7)`.  After the removal,
    tier 0 has freelist head 1 and slot 0 of bucket 1 holds the int -1 (both 16-bit
    halves, flat slots 4 and 5).  `add_entity(7)` does hand entity 7 the released bucket
    1 (the part of the claim that holds), but then sets `first_free_bucket` to
    `buckets[1]` - the Entity at FLAT index 1, which is slot 1 of the reserved bucket 0,
    value 0 - instead of the -1 stored in slot 0 of the popped bucket, as the claim and
    the write in `entitytainer_remove_entity` require. -/
theorem freelist_pop_reads_flat_index :
    (traceS4a.map fun s =>
      ((getBL s 0).first_free_bucket, arrGet (getBL s 0).buckets 4,
       arrGet (getBL s 0).buckets 5)) = some (1, -1, -1)
    ∧ (traceS4b.map fun s => (readL s 7, (getBL s 0).first_free_bucket)) = some (1, 0)
    ∧ (((0 : Int) = -1) → False) := by decide

/-- C5 (counterexample to the claim as stated): on the two-tier configuration `s5`
    (T = 2), the migration test fires for entity 1 while its bucket is in the top tier
    (`t + 1 = T = 2`), yet `entitytainer_add_child` does NOT fail the assertion - the
    source assert is `bucket_list_index != 3`, and 1 is not 3, so the add proceeds into
    a tier that does not exist. -/
theorem addChild_top_tier_assert_passes :
    decodeTier (readL s5 1) + 1 = s5.bucket_lists.length
    ∧ arrGet (getBL s5 (decodeTier (readL s5 1))).buckets
        ((decodeBucketIndex (readL s5 1) : Int)
          * (getBL s5 (decodeTier (readL s5 1))).bucket_size) + 1
      = (getBL s5 (decodeTier (readL s5 1))).bucket_size
    ∧ (entitytainer_add_child s5 1 99).isSome = true := by decide

/-- C5 (amended): the assertion in `entitytainer_add_child` guards exactly tier index 3
    (`ASSERT(bucket_list_index != 3)`) - equivalent to `t + 1 < T` only when T = 4: the
    add fails (returns `none`) if and only if the parent has no bucket, or the migration
    test fires with the decoded tier equal to 3. -/
theorem addChild_assert_exactly_tier3 (s : TheEntitytainer) (p c : Int) :
    entitytainer_add_child s p c = none
      ↔ (readL s p = 0
         ∨ (arrGet (getBL s (decodeTier (readL s p))).buckets
              ((decodeBucketIndex (readL s p) : Int)
                * (getBL s (decodeTier (readL s p))).bucket_size) + 1
            = (getBL s (decodeTier (readL s p))).bucket_size
            ∧ decodeTier (readL s p) = 3)) := by
  simp only [entitytainer_add_child]
  split_ifs with h1 h2 h3 <;> simp_all

/-- C6: the tier-migration block (`entitytainer_migrate`, the block shared by
    `entitytainer_add_child` lines 334-356 and `entitytainer_remove_child` lines
    394-414) never writes the reverse lookup array: for any state, parent, tiers and
    copy count, `entry_reverse_lookup` after the migration is the array from before it,
    and so `R[c]` is preserved for every child `c`. -/
theorem migration_does_not_touch_reverse_lookup (s : TheEntitytainer) (parent : Int)
    (tSrc : Nat) (srcOff : Int) (tDst : Nat) (copyCount : Nat) :
    (entitytainer_migrate s parent tSrc srcOff tDst copyCount).1.entry_reverse_lookup
      = s.entry_reverse_lookup
    ∧ ∀ c : Int,
        readR (entitytainer_migrate s parent tSrc srcOff tDst copyCount).1 c = readR s c :=
  ⟨rfl, fun _ => rfl⟩

/-- C7: `entitytainer_needed_size` is exactly the container header size plus
    `max_entities * sizeof(Entry)` (forward lookup) plus `max_entities * sizeof(Entity)`
    (reverse lookup) plus `T * sizeof(TheEntitytainerBucketList)` plus the sum over the
    tiers of `bucket_counts[t] * bucket_sizes[t] * sizeof(Entity)`, for all inputs and
    all sizeof parameters.  It is a plain function of its arguments (purity is
    intrinsic to the embedding). -/
theorem needed_size_closed_form (num_entries : Int) (bucket_sizes bucket_list_sizes : List Int)
    (T : Nat) (szContainer szEntry szEntity szBucketList : Int) :
    entitytainer_needed_size num_entries bucket_sizes bucket_list_sizes T
        szContainer szEntry szEntity szBucketList
      = szContainer + num_entries * szEntry + num_entries * szEntity + (T : Int) * szBucketList
        + ((List.range T).map
            (fun t => bucket_list_sizes.getD t 0 * bucket_sizes.getD t 0 * szEntity)).sum := by
  simp only [entitytainer_needed_size]
  rw [foldl_add_eq_sum]

/-- C9: `entitytainer_remove_entity` on an entity with zero forward lookup and zero
    reverse lookup returns the state unchanged - no lookup entry, no reverse entry, no
    tier counter and no freelist is modified. -/
theorem remove_entity_silent_when_absent (s : TheEntitytainer) (e : Int)
    (hL : readL s e = 0) (hR : readR s e = 0) :
    entitytainer_remove_entity s e = some s := by
  unfold entitytainer_remove_entity
  simp [hL, hR]

/-- C9 (witness): entity 5 of the freshly created scenario container was never added,
    and removing it returns the container unchanged. -/
theorem remove_entity_silent_witness :
    readL ent0 5 = 0 ∧ readR ent0 5 = 0 ∧ entitytainer_remove_entity ent0 5 = some ent0 :=
  ⟨by decide, by decide, remove_entity_silent_when_absent ent0 5 (by decide) (by decide)⟩

/-- C10 (code evaluated at the failing input): extending scenario S4 with one more
    `add_entity(8)`.  The corrupted freelist head 0 (see the C4 theorem) is popped, so
    entity 8 is handed the reserved tier-0 bucket 0 and its lookup word becomes 0 - the
    "no bucket" sentinel.  `add_entity` completes with both of its asserts passing
    (the lookup entry of 8 was 0), yet `entitytainer_num_children(8)` then fails its
    `lookup != 0` assert instead of returning 0 as the claim states. -/
theorem num_children_after_corrupted_freelist_add :
    (traceC10.map fun s => (readL s 8, entitytainer_num_children s 8))
      = some ((0 : Nat), (none : Option Int)) := by decide
